import Mathlib

deriving instance DecidableEq for Except

/-!
Verification of the nais/build CLI (Rust) against its natural-language
specification.  The Rust sources are shallowly embedded below: pure string
formatting becomes Lean functions on `String`, filesystem and process
effects become explicit world/state records, machine strings that are
manipulated bytewise become `List Nat`, and fallible code returns `Except`.
Each embedded definition is translated from the corresponding Rust item
(file and symbol named in its doc comment); theorems then settle the
frozen claims C1..C10.
-/

namespace NaisBuild

/-! ## Filesystem and process models -/

/-- Kind of an operating-system I/O error (`std::io::Error` in the source),
distinguishing the two kinds the claims care about from all others. -/
inductive IOErrorKind where
  | notFound
  | permissionDenied
  | other (msg : String)
deriving DecidableEq

/-- Result of `std::fs::metadata`: the one observation the probes make. -/
structure FileStat where
  is_file : Bool
deriving DecidableEq

/-- A filesystem, as the probes see it: a map from path to the outcome of
`std::fs::metadata` on that path. -/
def FS := String → Except IOErrorKind FileStat

/-! ## `config.rs` / `docker.rs`: Docker image name formatting

Embeds `config::docker::name` (identical code also appears in
`docker::name`): a `Config` record and the two `Display` implementations. -/

namespace docker_name

/-- Embeds `config::docker::name::Config` (src/config.rs): the four fields
an image name is formatted from. -/
structure Config where
  registry : String
  team : String
  app : String
  tag : String
deriving DecidableEq

/-- Embeds the `Display` impl for `config::docker::name::GoogleArtifactRegistry`
(src/config.rs): `format!("{registry}/{team}/{app}:{tag}")`. -/
def googleArtifactRegistry (c : Config) : String :=
  c.registry ++ "/" ++ c.team ++ "/" ++ c.app ++ ":" ++ c.tag

/-- Embeds the `Display` impl for `config::docker::name::GitHubContainerRegistry`
(src/config.rs): `format!("{registry}/{app}:{tag}")` — `team` is not read. -/
def gitHubContainerRegistry (c : Config) : String :=
  c.registry ++ "/" ++ c.app ++ ":" ++ c.tag

end docker_name

/-- Embeds `config::file::ReleaseType` (src/config.rs). -/
inductive ReleaseType where
  | gar
  | ghcr
deriving DecidableEq

/-- Embeds `config::file::Release::docker_name_builder` (src/config.rs):
selects the formatter from the configured release type. -/
def docker_name_builder (t : ReleaseType) (c : docker_name.Config) : String :=
  match t with
  | .gar => docker_name.googleArtifactRegistry c
  | .ghcr => docker_name.gitHubContainerRegistry c

/-! ## `main.rs`: the Release command arm -/

/-- One external action performed by the orchestrator, in order.  The
constructors cover every external call the Release arm could make
(`docker build`, `docker login`, `docker logout`, `docker push`, token
acquisition). -/
inductive DockerAction where
  | acquireToken
  | login (registry token : String)
  | logout (registry : String)
  | buildImage (tag : String)
  | push (image : String)
deriving DecidableEq

/-- Errors of the Release arm, following `main::Error` (src/main.rs): the
constructors reachable from the Release command. -/
inductive RunError where
  | auth (e : String)
  | filesystemError (e : IOErrorKind)
  | dockerLogin (code : Nat)
  | dockerLogout (code : Nat)
deriving DecidableEq

/-- Outcomes of the external collaborators during one Release invocation:
the token source, and the exit of each spawned `docker` process (an I/O
error, or an exit code where `0` is success). -/
structure RunWorld where
  tokenResult : Except String String
  loginResult : Except IOErrorKind Nat
  logoutResult : Except IOErrorKind Nat

/-- Embeds `token.strip_prefix("Bearer ").unwrap_or(&token)`
(src/main.rs, Release arm): drop a literal leading `"Bearer "` if present. -/
def stripBearer (t : String) : String :=
  if t.startsWith "Bearer " then t.drop 7 else t

/-- Result of one Release invocation: the image name it computed, the
ordered trace of external actions it performed, and its final result. -/
structure ReleaseOutcome where
  imageName : String
  trace : List DockerAction
  result : Except RunError Unit

/-- Embeds the `Commands::Release` arm of `run` (src/main.rs:170-189)
together with `docker_login` (193-213) and `docker_logout` (215-229):
optionally override the generated tag, format the image name, acquire a
token, strip a `"Bearer "` prefix, `docker login`, then `docker logout`.
Each `?` short-circuit is an early return; the trace records the external
calls actually made, in order.  The source contains no `docker build` or
`docker push` call in this arm (both are `TODO` comments, lines 177-185). -/
def releaseArm (w : RunWorld) (typ : ReleaseType)
    (registry team app genTag : String) (tagOpt : Option String) :
    ReleaseOutcome :=
  let nameCfg : docker_name.Config :=
    { registry := registry, team := team, app := app, tag := genTag }
  let nameCfg :=
    match tagOpt with
    | some t => { nameCfg with tag := t }
    | none => nameCfg
  let imageName := docker_name_builder typ nameCfg
  match w.tokenResult with
  | .error e => ⟨imageName, [.acquireToken], .error (.auth e)⟩
  | .ok token =>
    let token := stripBearer token
    match w.loginResult with
    | .error e =>
      ⟨imageName, [.acquireToken, .login registry token],
        .error (.filesystemError e)⟩
    | .ok code =>
      if code = 0 then
        match w.logoutResult with
        | .error e =>
          ⟨imageName, [.acquireToken, .login registry token, .logout registry],
            .error (.filesystemError e)⟩
        | .ok lcode =>
          if lcode = 0 then
            ⟨imageName, [.acquireToken, .login registry token, .logout registry],
              .ok ()⟩
          else
            ⟨imageName, [.acquireToken, .login registry token, .logout registry],
              .error (.dockerLogout lcode)⟩
      else
        ⟨imageName, [.acquireToken, .login registry token],
          .error (.dockerLogin code)⟩

/-! ## `sdk.rs`: SDK variants and probes, and `main.rs` `init_sdk` -/

namespace sdk

/-- Embeds `sdk::DetectBuildTargetError` (src/sdk.rs). -/
inductive DetectBuildTargetError where
  | filesystemError (e : IOErrorKind)
  | fileError (e : IOErrorKind) (path : String)
  | emptyFilename
deriving DecidableEq

/-- Embeds `sdk::Error` (src/sdk.rs). -/
inductive Error where
  | detectBuildTargetError (e : DetectBuildTargetError)
deriving DecidableEq

namespace golang

/-- Embeds `sdk::golang::Config` (src/sdk.rs). -/
structure Config where
  filesystem_path : String
  docker_builder_image : String
  docker_runtime_image : String
  start_hook : Option String
  end_hook : Option String
deriving DecidableEq

/-- Embeds `sdk::golang::Golang` (src/sdk.rs): a newtype over its config. -/
structure Golang where
  cfg : Config
deriving DecidableEq

/-- Embeds `sdk::golang::new` (src/sdk.rs:50-60): probe for a `go.mod`
regular file at the project root.  The `let Ok(file_stat) = metadata(..)
else return Ok(None)` pattern turns every metadata failure into
`Ok(None)`; a non-file marker is also `Ok(None)`. -/
def new (fs : FS) (cfg : Config) : Except Error (Option Golang) :=
  match fs (cfg.filesystem_path ++ "/go.mod") with
  | .error _ => .ok none
  | .ok file_stat =>
    if !file_stat.is_file then .ok none
    else .ok (some ⟨cfg⟩)

end golang

namespace gradle

/-- Embeds `sdk::gradle::Config` (src/sdk.rs). -/
structure Config where
  filesystem_path : String
  docker_builder_image : String
  docker_runtime_image : String
  settings_file : Option String
  start_hook : Option String
  end_hook : Option String
deriving DecidableEq

/-- Embeds `sdk::gradle::Gradle` (src/sdk.rs): a newtype over its config. -/
structure Gradle where
  cfg : Config
deriving DecidableEq

/-- Embeds `sdk::gradle::new` (src/sdk.rs:182-192): probe for a `gradlew`
regular file at the project root, with the same error shape as the Go
probe: every metadata failure yields `Ok(None)`. -/
def new (fs : FS) (cfg : Config) : Except Error (Option Gradle) :=
  match fs (cfg.filesystem_path ++ "/gradlew") with
  | .error _ => .ok none
  | .ok file_stat =>
    if !file_stat.is_file then .ok none
    else .ok (some ⟨cfg⟩)

end gradle

namespace maven

/-- Config for the Maven variant, with the fields `main::init_sdk` passes
to `sdk::maven::new` (src/main.rs:307-313). -/
structure Config where
  filesystem_path : String
  docker_builder_image : String
  docker_runtime_image : String
  start_hook : Option String
  end_hook : Option String
deriving DecidableEq

/-- The Maven variant value, by analogy with `Golang` and `Gradle`. -/
structure Maven where
  cfg : Config
deriving DecidableEq

/-- Modelled from the spec: `sdk::maven::new` is called by `main::init_sdk`
(src/main.rs:307) but src/sdk.rs contains no `maven` module.  Per the spec
(§4.1) a probe is a cheap read-only existence check of the variant marker
file (for the multi-module JVM tool, the module manifest `pom.xml`)
returning an explicit negative when not applicable; the error shape
follows the two probes that are in the source. -/
def new (fs : FS) (cfg : Config) : Except Error (Option Maven) :=
  match fs (cfg.filesystem_path ++ "/pom.xml") with
  | .error _ => .ok none
  | .ok file_stat =>
    if !file_stat.is_file then .ok none
    else .ok (some ⟨cfg⟩)

end maven

/-- Embeds the directory-entry observation used by
`sdk::golang::detect_build_targets` (src/sdk.rs:72-84): the entry name as
`file_name().to_str()` sees it (`none` when not representable as text). -/
structure DirEntry where
  name : Option String
deriving DecidableEq

/-- A directory-listing filesystem: the outcome of `std::fs::read_dir` on
a path — an error, or the iterator items in the order the OS yields them,
each item itself an `io::Result<DirEntry>`. -/
structure DirFS where
  read_dir : String → Except IOErrorKind (List (Except IOErrorKind DirEntry))

/-- The closure body of `sdk::golang::detect_build_targets`
(src/sdk.rs:76-82): `dir_entry?` propagates an entry error as
`FilesystemError`, then `file_name().to_str().ok_or(EmptyFilename)?`
yields the name or fails. -/
def entry_name (de : Except IOErrorKind DirEntry) :
    Except DetectBuildTargetError String :=
  match de with
  | .error e => .error (.filesystemError e)
  | .ok d =>
    match d.name with
    | some s => .ok s
    | none => .error .emptyFilename

/-- Embeds `sdk::golang::detect_build_targets` (src/sdk.rs:72-84): list
the `cmd` directory, mapping each entry through `entry_name` and
collecting (first error wins, as `collect` on `Result` does).  The
collected names keep the iterator order — nothing is sorted. -/
def detect_build_targets (dfs : DirFS) (cfg : golang.Config) :
    Except DetectBuildTargetError (List String) :=
  let targets_path := cfg.filesystem_path ++ "/cmd"
  match dfs.read_dir targets_path with
  | .error e => .error (.fileError e targets_path)
  | .ok entries => entries.mapM entry_name

end sdk

/-- Whether a probe marker at `path` is present as a regular file: the
condition under which the corresponding `new` returns `Ok(Some(..))`. -/
def markerIsFile (fs : FS) (path : String) : Bool :=
  match fs path with
  | .ok st => st.is_file
  | .error _ => false

/-- The per-SDK image configuration `main::init_sdk` reads from the parsed
configuration file (`cfg.sdk.go`, `cfg.sdk.gradle`, `cfg.sdk.maven`;
src/main.rs:276-313 with src/config.rs `Sdk`). -/
structure SdkFileConfig where
  go_build_docker_image : String
  go_runtime_docker_image : String
  gradle_build_docker_image : String
  gradle_runtime_docker_image : String
  gradle_settings_file : Option String
  maven_build_docker_image : String
  maven_runtime_docker_image : String
deriving DecidableEq

/-- The detected SDK returned by `init_sdk` (the `Box<dyn
DockerFileBuilder>` trait object, as a tagged union of the variants). -/
inductive SDKBox where
  | golang (s : sdk.golang.Golang)
  | gradle (s : sdk.gradle.Gradle)
  | maven (s : sdk.maven.Maven)
deriving DecidableEq

/-- The constructors of `main::Error` (src/main.rs) reachable from
`init_sdk`. -/
inductive InitSdkError where
  | sdkNotDetected
  | sdkError (e : sdk.Error)
deriving DecidableEq

/-- Embeds `main::init_sdk` (src/main.rs:272-323): try the Go probe, then
the Gradle probe, then the Maven probe, in that order; the first
`Ok(Some(..))` is returned at once, an `Err` from a probe is returned at
once, and when every probe answers `Ok(None)` the result is
`SDKNotDetected`. -/
def init_sdk (fs : FS) (filesystem_path : String) (cfg : SdkFileConfig) :
    Except InitSdkError SDKBox :=
  match sdk.golang.new fs
      ⟨filesystem_path, cfg.go_build_docker_image,
        cfg.go_runtime_docker_image, none, none⟩ with
  | .ok (some s) => .ok (.golang s)
  | .error e => .error (.sdkError e)
  | .ok none =>
    match sdk.gradle.new fs
        ⟨filesystem_path, cfg.gradle_build_docker_image,
          cfg.gradle_runtime_docker_image, cfg.gradle_settings_file,
          none, none⟩ with
    | .ok (some s) => .ok (.gradle s)
    | .error e => .error (.sdkError e)
    | .ok none =>
      match sdk.maven.new fs
          ⟨filesystem_path, cfg.maven_build_docker_image,
            cfg.maven_runtime_docker_image, none, none⟩ with
      | .ok (some s) => .ok (.maven s)
      | .error e => .error (.sdkError e)
      | .ok none => .error .sdkNotDetected

/-- A source tree whose `go.mod` stat fails with a permission error while
`gradlew` is a regular file — the probe-error scenario of C4. -/
def fsPermDenied : FS := fun p =>
  if p = "./go.mod" then .error .permissionDenied
  else if p = "./gradlew" then .ok ⟨true⟩
  else .error .notFound

/-- A source tree containing only a `go.mod` regular file. -/
def fsGoOnly : FS := fun p =>
  if p = "./go.mod" then .ok ⟨true⟩ else .error .notFound

/-- A concrete per-SDK image configuration for witnesses. -/
def sdkCfgExample : SdkFileConfig :=
  ⟨"go-b", "go-r", "gradle-b", "gradle-r", none, "maven-b", "maven-r"⟩

/-- A concrete Go-variant configuration for witnesses. -/
def goCfgExample : sdk.golang.Config := ⟨".", "go-b", "go-r", none, none⟩

/-- A concrete Gradle-variant configuration for witnesses. -/
def gradleCfgExample : sdk.gradle.Config :=
  ⟨".", "gradle-b", "gradle-r", none, none, none⟩

/-- A directory listing whose iterator yields `b` before `a` — an
unsorted read-dir order. -/
def fsCmdBA : sdk.DirFS :=
  ⟨fun p =>
    if p = "./cmd" then .ok [.ok ⟨some "b"⟩, .ok ⟨some "a"⟩]
    else .error .notFound⟩


/-! ## `auth.rs` and `google.rs`: the token provider -/

/-- The process environment as the token providers read it:
`std::env::var(..).ok()`. -/
def Env := String → Option String

/-- An HTTP response as the token code observes it: `resp.status()` and
the raw bytes of the body (held here as the text the code turns them
into). -/
structure HttpResponse where
  status : Nat
  body : String
deriving DecidableEq

namespace auth

/-- Embeds `auth::Error` (src/auth.rs:6-19); the payloads of the wrapped
foreign error types are kept as their rendered text. -/
inductive Error where
  | authError (e : String)
  | authTokenError (e : String)
  | reqwest (e : String)
  | deserialize (status : Nat) (body : String)
deriving DecidableEq

/-- The GET request `auth::github_id_token` sends (src/auth.rs:114-117):
url, bearer token, and the `audience` query parameter. -/
structure IdTokenRequest where
  url : String
  bearer : String
  audience : String
deriving DecidableEq

/-- Embeds `auth::TokenExchangeRequest` (src/auth.rs:56-65). -/
structure TokenExchangeRequest where
  grant_type : String
  audience : String
  scope : String
  requested_token_type : String
  subject_token : String
  subject_token_type : String
deriving DecidableEq

/-- Embeds `auth::GitHubTokenResponse` (src/auth.rs:72-75). -/
structure GitHubTokenResponse where
  value : String
deriving DecidableEq

/-- Embeds `auth::TokenExchangeResponse` (src/auth.rs:67-70). -/
structure TokenExchangeResponse where
  access_token : String
deriving DecidableEq

/-- The external collaborators of the auth module: the two HTTP endpoints
(each call returns a reqwest transport error or a response), the
serde_json decoders for the two expected shapes (`none` = decode
failure), and the two stages of the ambient default-credential source. -/
structure AuthWorld where
  idTokenEndpoint : IdTokenRequest → Except String HttpResponse
  stsEndpoint : TokenExchangeRequest → Except String HttpResponse
  decodeGitHubTokenResponse : String → Option GitHubTokenResponse
  decodeTokenExchangeResponse : String → Option TokenExchangeResponse
  garProviderResult : Except String Unit
  garTokenResult : Except String String

/-- Embeds `auth::get_gar_auth_token` (src/auth.rs:36-54): build the
default token source (failure → `AuthError`), fetch a token (failure →
`AuthTokenError`), and strip a literal `"Bearer "` prefix if present. -/
def get_gar_auth_token (w : AuthWorld) : Except Error String :=
  match w.garProviderResult with
  | .error e => .error (.authError e)
  | .ok _ =>
    match w.garTokenResult with
    | .error e => .error (.authTokenError e)
    | .ok token => .ok (stripBearer token)

/-- The id-token request `auth::github_id_token` builds: the `audience`
query parameter is `https://iam.googleapis.com/{workload_identity_pool}`
(src/auth.rs:116). -/
def idRequest (url bearer_token workload_identity_pool : String) :
    IdTokenRequest :=
  ⟨url, bearer_token,
    "https://iam.googleapis.com/" ++ workload_identity_pool⟩

/-- Embeds `auth::github_id_token` (src/auth.rs:108-130): GET the id
token; a transport failure is `Reqwest`, and a body that does not decode
as `GitHubTokenResponse` yields `Deserialize(status, body)` with the
literal response body. -/
def github_id_token (w : AuthWorld)
    (url bearer_token workload_identity_pool : String) :
    Except Error GitHubTokenResponse :=
  match w.idTokenEndpoint (idRequest url bearer_token workload_identity_pool) with
  | .error e => .error (.reqwest e)
  | .ok resp =>
    match w.decodeGitHubTokenResponse resp.body with
    | some token => .ok token
    | none => .error (.deserialize resp.status resp.body)

/-- The token-exchange request `auth::exchange_federated_token` builds
(src/auth.rs:82-89): fixed OAuth token-exchange constants, audience
`//iam.googleapis.com/{workload_identity_pool}`, and the id token as
subject token. -/
def exchangeRequest (workload_identity_pool subject : String) :
    TokenExchangeRequest :=
  { audience := "//iam.googleapis.com/" ++ workload_identity_pool,
    grant_type := "urn:ietf:params:oauth:grant-type:token-exchange",
    requested_token_type := "urn:ietf:params:oauth:token-type:access_token",
    scope := "https://www.googleapis.com/auth/cloud-platform",
    subject_token_type := "urn:ietf:params:oauth:token-type:jwt",
    subject_token := subject }

/-- Embeds `auth::exchange_federated_token` (src/auth.rs:77-106): POST the
exchange request; a transport failure is `Reqwest`, and a body that does
not decode as `TokenExchangeResponse` yields `Deserialize(status, body)`
with the literal response body. -/
def exchange_federated_token (w : AuthWorld)
    (workload_identity_pool id_token : String) :
    Except Error TokenExchangeResponse :=
  match w.stsEndpoint (exchangeRequest workload_identity_pool id_token) with
  | .error e => .error (.reqwest e)
  | .ok resp =>
    match w.decodeTokenExchangeResponse resp.body with
    | some token => .ok token
    | none => .error (.deserialize resp.status resp.body)

/-- The two paths the provider can take. -/
inductive Path where
  | federated (workload_identity_pool github_id_token_url github_token : String)
  | ambient
deriving DecidableEq

/-- The path selection of `auth::token` (src/auth.rs:21-34): federated
exactly on the `(Some, Some, Some)` pattern of the three ambient
signals. -/
def tokenPath (env : Env) : Path :=
  match env "WORKLOAD_IDENTITY_POOL", env "ACTIONS_ID_TOKEN_REQUEST_URL",
      env "ACTIONS_ID_TOKEN_REQUEST_TOKEN" with
  | some workload_identity_pool, some github_id_token_url, some github_token =>
    .federated workload_identity_pool github_id_token_url github_token
  | _, _, _ => .ambient

/-- Embeds `auth::token` (src/auth.rs:21-34): read the three ambient
signals; on `(Some, Some, Some)` fetch the GitHub id token and exchange
it, keeping only `access_token`; otherwise fall back to the ambient
default-credential path. -/
def token (env : Env) (w : AuthWorld) : Except Error String :=
  match env "WORKLOAD_IDENTITY_POOL", env "ACTIONS_ID_TOKEN_REQUEST_URL",
      env "ACTIONS_ID_TOKEN_REQUEST_TOKEN" with
  | some workload_identity_pool, some github_id_token_url, some github_token =>
    match github_id_token w github_id_token_url github_token
        workload_identity_pool with
    | .error e => .error e
    | .ok id_token =>
      match exchange_federated_token w workload_identity_pool id_token.value with
      | .error e => .error e
      | .ok t => .ok t.access_token
  | _, _, _ => get_gar_auth_token w

end auth

namespace google

/-- Embeds `google::Error` (src/google.rs:6-16): note there is no
status-and-body-carrying constructor in this snapshot. -/
inductive Error where
  | authError (e : String)
  | authTokenError (e : String)
  | reqwest (e : String)
deriving DecidableEq

/-- Embeds `google::TokenExchangeResponse` (src/google.rs:61-70). -/
structure TokenExchangeResponse where
  access_token : String
  issued_token_type : String
  token_type : String
  expires_in : Nat
deriving DecidableEq

/-- The external collaborators of the google module: the exchange
endpoint, the serde_json decode of `resp.json()` (whose failure carries
only the serde message), and the ambient default-credential source. -/
structure GoogleWorld where
  stsEndpoint : auth.TokenExchangeRequest → Except String HttpResponse
  decodeTokenExchange : String → Except String TokenExchangeResponse
  garProviderResult : Except String Unit
  garTokenResult : Except String String

/-- The exchange request `google::exchange_federated_token` builds
(src/google.rs:77-84): as in the auth module but with the pool used
verbatim as audience, without the `//iam.googleapis.com/` prefix. -/
def exchangeRequest (workload_identity_pool github_jwt : String) :
    auth.TokenExchangeRequest :=
  { audience := workload_identity_pool,
    grant_type := "urn:ietf:params:oauth:grant-type:token-exchange",
    requested_token_type := "urn:ietf:params:oauth:token-type:access_token",
    scope := "https://www.googleapis.com/auth/cloud-platform",
    subject_token_type := "urn:ietf:params:oauth:token-type:jwt",
    subject_token := github_jwt }

/-- Embeds `google::exchange_federated_token` (src/google.rs:72-92): POST
the exchange request and decode with `resp.json()`.  A decode failure is
surfaced as the plain `reqwest::Error` decode error (`Reqwest`) wrapping
only the serde message — the HTTP status and the response body are
discarded. -/
def exchange_federated_token (w : GoogleWorld)
    (workload_identity_pool github_jwt : String) :
    Except Error TokenExchangeResponse :=
  match w.stsEndpoint (exchangeRequest workload_identity_pool github_jwt) with
  | .error e => .error (.reqwest e)
  | .ok resp =>
    match w.decodeTokenExchange resp.body with
    | .ok token => .ok token
    | .error msg => .error (.reqwest msg)

/-- Embeds `google::get_gar_auth_token` (src/google.rs:30-48), identical
in shape to the auth module's. -/
def get_gar_auth_token (w : GoogleWorld) : Except Error String :=
  match w.garProviderResult with
  | .error e => .error (.authError e)
  | .ok _ =>
    match w.garTokenResult with
    | .error e => .error (.authTokenError e)
    | .ok token => .ok (stripBearer token)

/-- The two paths this snapshot of the provider can take. -/
inductive Path where
  | federated (workload_identity_pool github_jwt : String)
  | ambient
deriving DecidableEq

/-- The path selection of `google::token` (src/google.rs:18-28): keyed on
`GITHUB_TOKEN` and `WORKLOAD_IDENTITY_POOL` only — the OIDC token-request
URL and request token are never read. -/
def tokenPath (env : Env) : Path :=
  match env "GITHUB_TOKEN", env "WORKLOAD_IDENTITY_POOL" with
  | some github_jwt, some workload_identity_pool =>
    .federated workload_identity_pool github_jwt
  | _, _ => .ambient

/-- Embeds `google::token` (src/google.rs:18-28). -/
def token (env : Env) (w : GoogleWorld) : Except Error String :=
  match env "GITHUB_TOKEN", env "WORKLOAD_IDENTITY_POOL" with
  | some github_jwt, some workload_identity_pool =>
    match exchange_federated_token w workload_identity_pool github_jwt with
    | .error e => .error e
    | .ok t => .ok t.access_token
  | _, _ => get_gar_auth_token w

end google

/-- An environment with the identity pool and `GITHUB_TOKEN` set, but
neither of the two OIDC request signals. -/
def envPoolAndGithubToken : Env := fun v =>
  if v = "WORKLOAD_IDENTITY_POOL" then some "pool"
  else if v = "GITHUB_TOKEN" then some "gh-jwt"
  else none

/-- A concrete auth world for witnesses: both endpoints fail to connect,
nothing decodes, the ambient source succeeds. -/
def authWorldExample : auth.AuthWorld :=
  ⟨fun _ => .error "connect", fun _ => .error "connect",
    fun _ => none, fun _ => none, .ok (), .ok "ambient-token"⟩

/-- A concrete auth world whose endpoints answer but whose bodies do not
decode: the id-token endpoint answers 502 `bad gateway`, the exchange
endpoint answers 500 `oops`. -/
def authWorldDecodeFail : auth.AuthWorld :=
  ⟨fun _ => .ok ⟨502, "bad gateway"⟩, fun _ => .ok ⟨500, "oops"⟩,
    fun _ => none, fun _ => none, .ok (), .ok "ambient-token"⟩

/-- A google world whose exchange endpoint answers 500 `oops` and whose
decode fails with a fixed serde message. -/
def googleWorld500 : google.GoogleWorld :=
  ⟨fun _ => .ok ⟨500, "oops"⟩,
    fun _ => .error "expected value at line 1 column 1", .ok (), .ok "t"⟩

/-- A google world whose exchange endpoint answers 403 `denied`, with the
same failing decode. -/
def googleWorld403 : google.GoogleWorld :=
  ⟨fun _ => .ok ⟨403, "denied"⟩,
    fun _ => .error "expected value at line 1 column 1", .ok (), .ok "t"⟩


/-! ## `sdk.rs` golang `dockerfile`: the generated Dockerfile, characterwise

The Rust code builds the Dockerfile as a `String` by folding the per-target
command lines with `"\n"` separators and trimming the result.  Strings are
embedded here as `List Char`; `str::trim` is embedded over
`Char.isWhitespace` (the generated text is ASCII, where the two whitespace
notions agree). -/

/-- The trailing half of `str::trim`: drop whitespace from the end. -/
def dropTrailingWS (l : List Char) : List Char :=
  (l.reverse.dropWhile Char.isWhitespace).reverse

/-- Embeds `str::trim` as used on the command blocks (src/sdk.rs:99,106):
drop whitespace from both ends. -/
def trimChars (l : List Char) : List Char :=
  dropTrailingWS (l.dropWhile Char.isWhitespace)

/-- The concatenation underlying the command-block fold: each command
preceded by a newline. -/
def joinNL (cmds : List (List Char)) : List Char :=
  (cmds.map (fun c => '\n' :: c)).flatten

/-- Embeds the shared shape of `binary_build_commands` and
`binary_copy_commands` (src/sdk.rs:90-106):
`.fold(String::new(), |acc, item| acc + "\n" + &item).trim()`. -/
def commandBlock (cmds : List (List Char)) : List Char :=
  trimChars (cmds.foldl (fun acc item => acc ++ '\n' :: item) [])

namespace sdk

/-- One build command line (src/sdk.rs:93-96):
`format!("RUN go build -a -installsuffix cgo -o /build/{} ./cmd/{}", item, item)`. -/
def buildCommand (item : List Char) : List Char :=
  "RUN go build -a -installsuffix cgo -o /build/".toList ++ item ++
    " ./cmd/".toList ++ item

/-- One copy command line (src/sdk.rs:103):
`format!("COPY --from=builder /build/{} /app/{}", item, item)`. -/
def copyCommand (item : List Char) : List Char :=
  "COPY --from=builder /build/".toList ++ item ++ " /app/".toList ++ item

/-- Embeds the `binary_build_commands` value of `golang::dockerfile`
(src/sdk.rs:90-100). -/
def binary_build_commands (targets : List (List Char)) : List Char :=
  commandBlock (targets.map buildCommand)

/-- Embeds the `binary_copy_commands` value of `golang::dockerfile`
(src/sdk.rs:101-106). -/
def binary_copy_commands (targets : List (List Char)) : List Char :=
  commandBlock (targets.map copyCommand)

/-- Embeds the `default_target` value of `golang::dockerfile`
(src/sdk.rs:107-111): the literal `CMD ["/app/{}"]` when there is exactly
one target, else the comment line. -/
def default_target (targets : List (List Char)) : List Char :=
  match targets with
  | [t] => "CMD [\"/app/".toList ++ t ++ "\"]".toList
  | _ => "# Default CMD omitted due to multiple targets specified".toList

/-- Embeds the Dockerfile template of `golang::dockerfile`
(src/sdk.rs:113-152), with the three computed blocks interpolated at
their placeholders. -/
def dockerfileGo (targets : List (List Char))
    (builder_image runtime_image : List Char) : List Char :=
  "\n# Dockerfile generated by NAIS build (version) at (timestamp)\n\n#\n# Builder image\n#\nFROM ".toList
    ++ builder_image
    ++ " AS builder\nENV GOOS=linux\nENV CGO_ENABLED=0\nWORKDIR /src\n\n# Copy go.mod and go.sum files into source directory\n# so that dependencies can be downloaded before the source code.\n# This is a cache optimization step (???)\nCOPY go.* /src/\nRUN go mod download\nCOPY . /src\n\n# Start hook is run before testing\n#RUN ___start_hook\n\n# Test all modules\nRUN go test ./...\n\n# Build all binaries found in ./cmd/*\n".toList
    ++ binary_build_commands targets
    ++ "\n\n# End hook is run after build\n#RUN ___end_hook\n\n#\n# Runtime image\n#\nFROM ".toList
    ++ runtime_image
    ++ "\nWORKDIR /app\n".toList
    ++ binary_copy_commands targets
    ++ '\n' :: default_target targets ++ ['\n']

/-- Embeds `golang::dockerfile` (src/sdk.rs:86-153): discover the targets
(`?` propagates the discovery error into `sdk::Error`), then render the
template. -/
def dockerfile (dfs : DirFS) (cfg : golang.Config) :
    Except Error (List Char) :=
  match detect_build_targets dfs cfg with
  | .error e => .error (.detectBuildTargetError e)
  | .ok targets =>
    .ok (dockerfileGo (targets.map String.toList)
      cfg.docker_builder_image.toList cfg.docker_runtime_image.toList)

end sdk


/-! ## `auth.rs`: `slug_hash_prefix_truncate`, and the sha256 crate

The slug functions manipulate Rust `String`/`&str` values bytewise
(`s.len()`, `&s[0..n]`), so strings are embedded here as `List Nat` of
their bytes. -/

namespace sha256

/-- Modelled from the documented behavior of the external `sha256` crate
used at src/auth.rs:168 (`sha256::digest`): FIPS 180-4 SHA-256.  These
are the standard round constants. -/
def kConst : List Nat :=
  [1116352408, 1899447441, 3049323471, 3921009573,
   961987163, 1508970993, 2453635748, 2870763221,
   3624381080, 310598401, 607225278, 1426881987,
   1925078388, 2162078206, 2614888103, 3248222580,
   3835390401, 4022224774, 264347078, 604807628,
   770255983, 1249150122, 1555081692, 1996064986,
   2554220882, 2821834349, 2952996808, 3210313671,
   3336571891, 3584528711, 113926993, 338241895,
   666307205, 773529912, 1294757372, 1396182291,
   1695183700, 1986661051, 2177026350, 2456956037,
   2730485921, 2820302411, 3259730800, 3345764771,
   3516065817, 3600352804, 4094571909, 275423344,
   430227734, 506948616, 659060556, 883997877,
   958139571, 1322822218, 1537002063, 1747873779,
   1955562222, 2024104815, 2227730452, 2361852424,
   2428436474, 2756734187, 3204031479, 3329325298]

/-- The 32-bit modulus. -/
def M32 : Nat := 4294967296

/-- 32-bit rotate right. -/
def rotr (n x : Nat) : Nat := ((x >>> n) ||| (x <<< (32 - n))) % M32

/-- SHA-256 Σ0. -/
def bsig0 (x : Nat) : Nat := rotr 2 x ^^^ rotr 13 x ^^^ rotr 22 x

/-- SHA-256 Σ1. -/
def bsig1 (x : Nat) : Nat := rotr 6 x ^^^ rotr 11 x ^^^ rotr 25 x

/-- SHA-256 σ0. -/
def ssig0 (x : Nat) : Nat := rotr 7 x ^^^ rotr 18 x ^^^ (x >>> 3)

/-- SHA-256 σ1. -/
def ssig1 (x : Nat) : Nat := rotr 17 x ^^^ rotr 19 x ^^^ (x >>> 10)

/-- The message length in bits as 8 big-endian bytes. -/
def lenBytesBE (bitLen : Nat) : List Nat :=
  [bitLen >>> 56 % 256, bitLen >>> 48 % 256, bitLen >>> 40 % 256, bitLen >>> 32 % 256,
   bitLen >>> 24 % 256, bitLen >>> 16 % 256, bitLen >>> 8 % 256, bitLen % 256]

/-- FIPS 180-4 padding: a `0x80` byte, zeros to 56 mod 64, then the bit
length. -/
def padMessage (msg : List Nat) : List Nat :=
  let padZeros := (119 - msg.length % 64) % 64
  msg ++ 128 :: List.replicate padZeros 0 ++ lenBytesBE (8 * msg.length)

/-- Big-endian 32-bit words from bytes. -/
def bytesToWords : List Nat → List Nat
  | b0 :: b1 :: b2 :: b3 :: rest =>
    (((b0 * 256 + b1) * 256 + b2) * 256 + b3) :: bytesToWords rest
  | _ => []

/-- Extend the 16 block words to the 64-word message schedule. -/
def extendWords : Nat → List Nat → List Nat
  | 0, ws => ws
  | n + 1, ws =>
    let i := ws.length
    let w := (ssig1 (ws.getD (i - 2) 0) + ws.getD (i - 7) 0 +
      ssig0 (ws.getD (i - 15) 0) + ws.getD (i - 16) 0) % M32
    extendWords n (ws ++ [w])

/-- The eight 32-bit working variables. -/
structure Words8 where
  a : Nat
  b : Nat
  c : Nat
  d : Nat
  e : Nat
  f : Nat
  g : Nat
  h : Nat
deriving DecidableEq

/-- The standard initial hash value. -/
def initH : Words8 :=
  ⟨1779033703, 3144134277, 1013904242, 2773480762, 1359893119, 2600822924, 528734635, 1541459225⟩

/-- One compression round; the pair is `(schedule word, round constant)`. -/
def compressStep (st : Words8) (wk : Nat × Nat) : Words8 :=
  let ch := (st.e &&& st.f) ^^^ ((st.e ^^^ 4294967295) &&& st.g)
  let maj := (st.a &&& st.b) ^^^ (st.a &&& st.c) ^^^ (st.b &&& st.c)
  let t1 := (st.h + bsig1 st.e + ch + wk.2 + wk.1) % M32
  let t2 := (bsig0 st.a + maj) % M32
  ⟨(t1 + t2) % M32, st.a, st.b, st.c, (st.d + t1) % M32, st.e, st.f, st.g⟩

/-- Compress one 64-byte block into the running hash. -/
def compressBlock (st0 : Words8) (block : List Nat) : Words8 :=
  let ws := extendWords 48 (bytesToWords block)
  let st := (ws.zip kConst).foldl compressStep st0
  ⟨(st0.a + st.a) % M32, (st0.b + st.b) % M32, (st0.c + st.c) % M32,
   (st0.d + st.d) % M32, (st0.e + st.e) % M32, (st0.f + st.f) % M32,
   (st0.g + st.g) % M32, (st0.h + st.h) % M32⟩

/-- Split into 64-byte blocks; the fuel is the block count of the padded
message. -/
def chunks : Nat → List Nat → List (List Nat)
  | 0, _ => []
  | n + 1, l => l.take 64 :: chunks n (l.drop 64)

/-- The eight final hash words of a byte message. -/
def sha256Words (msg : List Nat) : Words8 :=
  let padded := padMessage msg
  (chunks (padded.length / 64) padded).foldl compressBlock initH

/-- A nibble as the byte of its lowercase hex character. -/
def hexDigit (n : Nat) : Nat := if n < 10 then 48 + n else 87 + n

/-- One 32-bit word as 8 lowercase hex bytes. -/
def wordHexBytes (w : Nat) : List Nat :=
  [hexDigit (w >>> 28 % 16), hexDigit (w >>> 24 % 16), hexDigit (w >>> 20 % 16),
   hexDigit (w >>> 16 % 16), hexDigit (w >>> 12 % 16), hexDigit (w >>> 8 % 16),
   hexDigit (w >>> 4 % 16), hexDigit (w % 16)]

/-- Modelled from the `sha256` crate's `digest`: the lowercase-hex SHA-256
of the input bytes, as the bytes of the 64-character hex string.  (The
embedding reproduces the crate byte for byte on the test vectors in
src/auth.rs, see `slug_hash_prefix_truncate_repo_test`.) -/
def digest (msg : List Nat) : List Nat :=
  let st := sha256Words msg
  wordHexBytes st.a ++ wordHexBytes st.b ++ wordHexBytes st.c ++ wordHexBytes st.d ++
    wordHexBytes st.e ++ wordHexBytes st.f ++ wordHexBytes st.g ++ wordHexBytes st.h

end sha256

/-- Bytes of an ASCII string, for concrete inputs. -/
def strBytes (s : String) : List Nat := s.toList.map Char.toNat

namespace auth

/-- Embeds `auth::truncate` (src/auth.rs:203-209): truncate a string (as
bytes) without panicking; `&s[0..length]` is byte slicing. -/
def truncate (s : List Nat) (length : Nat) : List Nat :=
  if s.length < length then s else s.take length

/-- Embeds `auth::slug_hash_prefix_truncate` (src/auth.rs:166-177):
`<PFX>-<TRUNCATED_SLUG>-<HASH>` where the hash is the first four hex
characters of the slug's SHA-256, and `None` when the slug length would
go below zero.  `45` is the byte of the `-` separator; `join("-")` is
`intercalate`. -/
def slug_hash_prefix_truncate (slug pfx : List Nat) (max_length : Nat) :
    Option (List Nat) :=
  let HASH_LENGTH : Nat := 4
  let hashed_slug := sha256.digest slug
  let prefix_len : Int := pfx.length
  let slug_length : Int := (max_length : Int) - prefix_len - (HASH_LENGTH : Int) - 2
  if slug_length < 0 then none
  else
    let trimmed := truncate slug (max slug_length 0).toNat
    let truncated := truncate hashed_slug (max HASH_LENGTH 0)
    some (List.intercalate [45] [pfx, trimmed, truncated])

end auth


end NaisBuild

namespace NaisBuild

/-- C7: Image-name formatting is a pure function of the release target and
the four fields: the GoogleArtifactRegistry formatter yields
`registry/team/app:tag`, the GitHubContainerRegistry formatter yields
`registry/app:tag`, and the GHCR output is identical for any two inputs
that differ only in `team`. -/
theorem c7_image_name_formatting :
    (∀ c : docker_name.Config,
      docker_name.googleArtifactRegistry c =
        c.registry ++ "/" ++ c.team ++ "/" ++ c.app ++ ":" ++ c.tag) ∧
    (∀ c : docker_name.Config,
      docker_name.gitHubContainerRegistry c =
        c.registry ++ "/" ++ c.app ++ ":" ++ c.tag) ∧
    (∀ c₁ c₂ : docker_name.Config,
      c₁.registry = c₂.registry → c₁.app = c₂.app → c₁.tag = c₂.tag →
      docker_name.gitHubContainerRegistry c₁ =
        docker_name.gitHubContainerRegistry c₂) := by
  refine ⟨fun c => rfl, fun c => rfl, fun c₁ c₂ hr ha ht => ?_⟩
  simp [docker_name.gitHubContainerRegistry, hr, ha, ht]

/-- C7 witness: the two formatters at the concrete configuration used by
the claim, and team-ignorance at two configurations differing in team. -/
theorem c7_image_name_formatting_witness :
    docker_name.googleArtifactRegistry ⟨"r", "t", "a", "1"⟩ = "r/t/a:1" ∧
    docker_name.gitHubContainerRegistry ⟨"r", "t", "a", "1"⟩ = "r/a:1" ∧
    docker_name.gitHubContainerRegistry ⟨"r", "t", "a", "1"⟩ =
      docker_name.gitHubContainerRegistry ⟨"r", "u", "a", "1"⟩ :=
  ⟨c7_image_name_formatting.1 ⟨"r", "t", "a", "1"⟩,
   c7_image_name_formatting.2.1 ⟨"r", "t", "a", "1"⟩,
   c7_image_name_formatting.2.2 ⟨"r", "t", "a", "1"⟩ ⟨"r", "u", "a", "1"⟩
     rfl rfl rfl⟩

/-- C1: the Release arm never performs a `docker push` — for every world,
release type, configuration and tag override, no push action appears in
the trace of external calls.  (The claim says a push happens after login
and that logout is still attempted when it fails; the code has only a
`TODO` where the push would be.) -/
theorem c1_release_never_pushes (w : RunWorld) (typ : ReleaseType)
    (registry team app genTag : String) (tagOpt : Option String)
    (s : String) :
    DockerAction.push s ∉ (releaseArm w typ registry team app genTag tagOpt).trace := by
  unfold releaseArm
  rcases w with ⟨tok, login, logout⟩
  rcases tok with e | t <;> rcases login with e₂ | c <;>
    rcases logout with e₃ | lc <;> simp
  all_goals split_ifs <;> simp

/-- C2: the Release arm never runs the Build stage — for every world and
configuration the trace contains no build action, with or without a tag
override; and when a tag override is supplied it is used verbatim as the
tag field of the formatted image name.  (The claim says Build runs before
login/push when no override is given; the code has only a `TODO` there.) -/
theorem c2_release_skips_build (w : RunWorld) (typ : ReleaseType)
    (registry team app genTag : String) :
    (∀ tagOpt : Option String, ∀ x : String,
      DockerAction.buildImage x ∉ (releaseArm w typ registry team app genTag tagOpt).trace) ∧
    (∀ tg : String,
      (releaseArm w typ registry team app genTag (some tg)).imageName =
        docker_name_builder typ ⟨registry, team, app, tg⟩) := by
  constructor
  · intro tagOpt x
    unfold releaseArm
    rcases w with ⟨tok, login, logout⟩
    rcases tok with e | t <;> rcases login with e₂ | c <;>
      rcases logout with e₃ | lc <;> simp
    all_goals split_ifs <;> simp
  · intro tg
    unfold releaseArm
    rcases w with ⟨tok, login, logout⟩
    rcases tok with e | t <;> rcases login with e₂ | c <;>
      rcases logout with e₃ | lc <;> simp
    all_goals split_ifs <;> simp


/-! ### Helper lemmas about the probes -/

/-- A probe marker whose stat fails is not present as a file. -/
theorem markerIsFile_of_error (fs : FS) (p : String) (e : IOErrorKind)
    (h : fs p = .error e) : markerIsFile fs p = false := by
  unfold markerIsFile
  rw [h]

/-- When the `go.mod` marker is a regular file, the Go probe succeeds. -/
theorem golang_new_of_marker (fs : FS) (cfg : sdk.golang.Config)
    (h : markerIsFile fs (cfg.filesystem_path ++ "/go.mod") = true) :
    sdk.golang.new fs cfg = .ok (some ⟨cfg⟩) := by
  unfold markerIsFile at h
  unfold sdk.golang.new
  cases hfs : fs (cfg.filesystem_path ++ "/go.mod") with
  | error e => rw [hfs] at h; simp at h
  | ok st => rw [hfs] at h; simp_all

/-- When the `go.mod` marker is absent or not a regular file (including
every stat error), the Go probe answers not-applicable. -/
theorem golang_new_of_no_marker (fs : FS) (cfg : sdk.golang.Config)
    (h : markerIsFile fs (cfg.filesystem_path ++ "/go.mod") = false) :
    sdk.golang.new fs cfg = .ok none := by
  unfold markerIsFile at h
  unfold sdk.golang.new
  cases hfs : fs (cfg.filesystem_path ++ "/go.mod") with
  | error e => rfl
  | ok st => rw [hfs] at h; simp_all

/-- When the `gradlew` marker is a regular file, the Gradle probe succeeds. -/
theorem gradle_new_of_marker (fs : FS) (cfg : sdk.gradle.Config)
    (h : markerIsFile fs (cfg.filesystem_path ++ "/gradlew") = true) :
    sdk.gradle.new fs cfg = .ok (some ⟨cfg⟩) := by
  unfold markerIsFile at h
  unfold sdk.gradle.new
  cases hfs : fs (cfg.filesystem_path ++ "/gradlew") with
  | error e => rw [hfs] at h; simp at h
  | ok st => rw [hfs] at h; simp_all

/-- When the `gradlew` marker is absent or not a regular file, the Gradle
probe answers not-applicable. -/
theorem gradle_new_of_no_marker (fs : FS) (cfg : sdk.gradle.Config)
    (h : markerIsFile fs (cfg.filesystem_path ++ "/gradlew") = false) :
    sdk.gradle.new fs cfg = .ok none := by
  unfold markerIsFile at h
  unfold sdk.gradle.new
  cases hfs : fs (cfg.filesystem_path ++ "/gradlew") with
  | error e => rfl
  | ok st => rw [hfs] at h; simp_all

/-- When the `pom.xml` marker is a regular file, the Maven probe succeeds. -/
theorem maven_new_of_marker (fs : FS) (cfg : sdk.maven.Config)
    (h : markerIsFile fs (cfg.filesystem_path ++ "/pom.xml") = true) :
    sdk.maven.new fs cfg = .ok (some ⟨cfg⟩) := by
  unfold markerIsFile at h
  unfold sdk.maven.new
  cases hfs : fs (cfg.filesystem_path ++ "/pom.xml") with
  | error e => rw [hfs] at h; simp at h
  | ok st => rw [hfs] at h; simp_all

/-- When the `pom.xml` marker is absent or not a regular file, the Maven
probe answers not-applicable. -/
theorem maven_new_of_no_marker (fs : FS) (cfg : sdk.maven.Config)
    (h : markerIsFile fs (cfg.filesystem_path ++ "/pom.xml") = false) :
    sdk.maven.new fs cfg = .ok none := by
  unfold markerIsFile at h
  unfold sdk.maven.new
  cases hfs : fs (cfg.filesystem_path ++ "/pom.xml") with
  | error e => rfl
  | ok st => rw [hfs] at h; simp_all

/-- C3: SDK detection probes the variants in the fixed order Go, Gradle,
Maven; the first variant whose marker is present wins regardless of any
later marker, and when no marker is present the result is exactly
`SDKNotDetected`.  A tree with only one marker therefore yields that
variant. -/
theorem c3_sdk_detection_first_match (fs : FS) (path : String)
    (cfg : SdkFileConfig) :
    (markerIsFile fs (path ++ "/go.mod") = true →
      init_sdk fs path cfg =
        .ok (.golang ⟨⟨path, cfg.go_build_docker_image,
          cfg.go_runtime_docker_image, none, none⟩⟩)) ∧
    (markerIsFile fs (path ++ "/go.mod") = false →
      markerIsFile fs (path ++ "/gradlew") = true →
      init_sdk fs path cfg =
        .ok (.gradle ⟨⟨path, cfg.gradle_build_docker_image,
          cfg.gradle_runtime_docker_image, cfg.gradle_settings_file,
          none, none⟩⟩)) ∧
    (markerIsFile fs (path ++ "/go.mod") = false →
      markerIsFile fs (path ++ "/gradlew") = false →
      markerIsFile fs (path ++ "/pom.xml") = true →
      init_sdk fs path cfg =
        .ok (.maven ⟨⟨path, cfg.maven_build_docker_image,
          cfg.maven_runtime_docker_image, none, none⟩⟩)) ∧
    (markerIsFile fs (path ++ "/go.mod") = false →
      markerIsFile fs (path ++ "/gradlew") = false →
      markerIsFile fs (path ++ "/pom.xml") = false →
      init_sdk fs path cfg = .error .sdkNotDetected) := by
  refine ⟨fun h1 => ?_, fun h1 h2 => ?_, fun h1 h2 h3 => ?_, fun h1 h2 h3 => ?_⟩ <;>
    unfold init_sdk
  · rw [golang_new_of_marker fs _ h1]
  · rw [golang_new_of_no_marker fs _ h1, gradle_new_of_marker fs _ h2]
  · rw [golang_new_of_no_marker fs _ h1, gradle_new_of_no_marker fs _ h2,
      maven_new_of_marker fs _ h3]
  · rw [golang_new_of_no_marker fs _ h1, gradle_new_of_no_marker fs _ h2,
      maven_new_of_no_marker fs _ h3]

/-- C3 witness: a tree containing only a `go.mod` marker is detected as
the Go variant, and a tree with no marker at all fails with
`SDKNotDetected`. -/
theorem c3_sdk_detection_first_match_witness :
    markerIsFile fsGoOnly ("." ++ "/go.mod") = true ∧
    init_sdk fsGoOnly "." sdkCfgExample =
      .ok (.golang ⟨⟨".", "go-b", "go-r", none, none⟩⟩) ∧
    init_sdk (fun _ => .error .notFound) "." sdkCfgExample =
      .error .sdkNotDetected :=
  ⟨by decide,
   (c3_sdk_detection_first_match fsGoOnly "." sdkCfgExample).1 (by decide),
   (c3_sdk_detection_first_match (fun _ => .error .notFound) "."
      sdkCfgExample).2.2.2 (by decide) (by decide) (by decide)⟩

/-- C4 counterexample: a `go.mod` stat that fails with permission denied
is not propagated as a detection error — the Go probe answers
not-applicable and detection goes on to (and returns) the Gradle variant. -/
theorem c4_counterexample :
    fsPermDenied "./go.mod" = .error .permissionDenied ∧
    sdk.golang.new fsPermDenied goCfgExample = .ok none ∧
    init_sdk fsPermDenied "." sdkCfgExample =
      .ok (.gradle ⟨⟨".", "gradle-b", "gradle-r", none, none, none⟩⟩) := by
  refine ⟨by decide, by decide, by decide⟩

/-- C4 amended: a probe filesystem error of any kind (permission denied
included) is treated exactly like an absent marker — the probe returns
not-applicable, the error payload is dropped, and detection proceeds to
the next variant instead of failing. -/
theorem c4_probe_fs_error_not_propagated (fs : FS)
    (gocfg : sdk.golang.Config) (grcfg : sdk.gradle.Config)
    (path : String) (cfg : SdkFileConfig) (e₁ e₂ e₃ : IOErrorKind) :
    (fs (gocfg.filesystem_path ++ "/go.mod") = .error e₁ →
      sdk.golang.new fs gocfg = .ok none) ∧
    (fs (grcfg.filesystem_path ++ "/gradlew") = .error e₂ →
      sdk.gradle.new fs grcfg = .ok none) ∧
    (fs (path ++ "/go.mod") = .error e₃ →
      markerIsFile fs (path ++ "/gradlew") = true →
      init_sdk fs path cfg =
        .ok (.gradle ⟨⟨path, cfg.gradle_build_docker_image,
          cfg.gradle_runtime_docker_image, cfg.gradle_settings_file,
          none, none⟩⟩)) := by
  refine ⟨fun h => ?_, fun h => ?_, fun h hg => ?_⟩
  · exact golang_new_of_no_marker fs _ (markerIsFile_of_error fs _ e₁ h)
  · exact gradle_new_of_no_marker fs _ (markerIsFile_of_error fs _ e₂ h)
  · unfold init_sdk
    rw [golang_new_of_no_marker fs _ (markerIsFile_of_error fs _ e₃ h),
      gradle_new_of_marker fs _ hg]

/-- C4 amended witness: the probes at concrete filesystems whose marker
stat fails with permission denied, and detection continuing past the
failed Go probe to the Gradle variant. -/
theorem c4_probe_fs_error_not_propagated_witness :
    sdk.golang.new fsPermDenied goCfgExample = .ok none ∧
    sdk.gradle.new (fun _ => .error .permissionDenied) gradleCfgExample =
      .ok none ∧
    init_sdk fsPermDenied "." sdkCfgExample =
      .ok (.gradle ⟨⟨".", "gradle-b", "gradle-r", none, none, none⟩⟩) :=
  ⟨(c4_probe_fs_error_not_propagated fsPermDenied goCfgExample
      gradleCfgExample "." sdkCfgExample .permissionDenied
      .permissionDenied .permissionDenied).1 (by decide),
   (c4_probe_fs_error_not_propagated (fun _ => .error .permissionDenied)
      goCfgExample gradleCfgExample "." sdkCfgExample .permissionDenied
      .permissionDenied .permissionDenied).2.1 rfl,
   (c4_probe_fs_error_not_propagated fsPermDenied goCfgExample
      gradleCfgExample "." sdkCfgExample .permissionDenied
      .permissionDenied .permissionDenied).2.2 (by decide) (by decide)⟩

/-- C8 counterexample: with a directory iterator that yields `b` before
`a`, `detect_build_targets` returns the raw iterator order `[b, a]`,
which is not sorted — nothing canonicalises the order before use. -/
theorem c8_counterexample :
    sdk.detect_build_targets fsCmdBA goCfgExample = .ok ["b", "a"] ∧
    ¬ List.Sorted (· ≤ ·) ["b", "a"] := by
  refine ⟨by decide, fun hs => ?_⟩
  have h := (List.sorted_cons.mp hs).1 "a" (by simp)
  rw [String.le_iff_toList_le] at h
  exact absurd h (by decide)

/-- C8 amended: the Go target list is exactly the sequence of entry names
in the order the OS directory iterator yields them; no sorting or other
canonicalisation is applied. -/
theorem c8_targets_follow_readdir_order (dfs : sdk.DirFS)
    (cfg : sdk.golang.Config) (names : List String)
    (h : dfs.read_dir (cfg.filesystem_path ++ "/cmd") =
      .ok (names.map fun n => .ok ⟨some n⟩)) :
    sdk.detect_build_targets dfs cfg = .ok names := by
  have key : ∀ ns : List String,
      List.mapM sdk.entry_name
        (ns.map fun n => (.ok ⟨some n⟩ : Except IOErrorKind sdk.DirEntry)) =
        .ok ns := by
    intro ns
    induction ns with
    | nil => rfl
    | cons n t ih => rw [List.map_cons, List.mapM_cons, ih]; rfl
  simp only [sdk.detect_build_targets]
  rw [h]
  exact key names

/-- C8 amended witness: the order-preservation theorem applied to the
concrete iterator that yields `b` before `a`. -/
theorem c8_targets_follow_readdir_order_witness :
    fsCmdBA.read_dir (goCfgExample.filesystem_path ++ "/cmd") =
      .ok (["b", "a"].map fun n => .ok ⟨some n⟩) ∧
    sdk.detect_build_targets fsCmdBA goCfgExample = .ok ["b", "a"] :=
  ⟨by decide,
   c8_targets_follow_readdir_order fsCmdBA goCfgExample ["b", "a"]
     (by decide)⟩


/-- C5 counterexample: with only the identity-pool signal present among
the claim's three signals (the OIDC token-request URL and request token
are unset), the `google` snapshot of the token provider still selects the
federated path, because its selection is keyed on `GITHUB_TOKEN` and the
pool alone — refuting the all-three-or-ambient rule as a statement about
every token provider in the source. -/
theorem c5_counterexample :
    envPoolAndGithubToken "ACTIONS_ID_TOKEN_REQUEST_URL" = none ∧
    envPoolAndGithubToken "ACTIONS_ID_TOKEN_REQUEST_TOKEN" = none ∧
    google.tokenPath envPoolAndGithubToken = .federated "pool" "gh-jwt" := by
  refine ⟨by decide, by decide, by decide⟩

/-- C5 amended: the current provider (`auth::token`) selects the
federated path iff all three ambient signals are present, and whenever
its selection is ambient the whole call is exactly the ambient
default-credential path (no partial federated attempt); the superseded
`google::token` snapshot instead selects federated iff `GITHUB_TOKEN` and
the pool are present, never reading the two OIDC request signals. -/
theorem c5_federated_selection (env : Env) :
    ((∃ p u t, auth.tokenPath env = .federated p u t) ↔
      (env "WORKLOAD_IDENTITY_POOL").isSome ∧
      (env "ACTIONS_ID_TOKEN_REQUEST_URL").isSome ∧
      (env "ACTIONS_ID_TOKEN_REQUEST_TOKEN").isSome) ∧
    (∀ w : auth.AuthWorld, auth.tokenPath env = .ambient →
      auth.token env w = auth.get_gar_auth_token w) ∧
    ((∃ p j, google.tokenPath env = .federated p j) ↔
      (env "GITHUB_TOKEN").isSome ∧
      (env "WORKLOAD_IDENTITY_POOL").isSome) := by
  rcases h1 : env "WORKLOAD_IDENTITY_POOL" with _ | p <;>
    rcases h2 : env "ACTIONS_ID_TOKEN_REQUEST_URL" with _ | u <;>
    rcases h3 : env "ACTIONS_ID_TOKEN_REQUEST_TOKEN" with _ | t <;>
    rcases h4 : env "GITHUB_TOKEN" with _ | j <;>
    simp [auth.tokenPath, auth.token, google.tokenPath, h1, h2, h3, h4]

/-- C5 amended witness: at the concrete environment with only the pool
and `GITHUB_TOKEN` set, the current provider takes the ambient path. -/
theorem c5_federated_selection_witness :
    auth.tokenPath envPoolAndGithubToken = .ambient ∧
    auth.token envPoolAndGithubToken authWorldExample =
      auth.get_gar_auth_token authWorldExample :=
  ⟨by decide,
   (c5_federated_selection envPoolAndGithubToken).2.1 authWorldExample
     (by decide)⟩

/-- C6 counterexample: in the `google` snapshot a body that fails to
decode produces the generic reqwest decode error carrying only the serde
message; two responses with different statuses and different bodies yield
the identical error value, so that error embeds neither the status code
nor the body — refuting the claim at the `google::exchange_federated_token`
call site (src/google.rs:85-91). -/
theorem c6_counterexample :
    google.exchange_federated_token googleWorld500 "p" "j" =
      .error (.reqwest "expected value at line 1 column 1") ∧
    google.exchange_federated_token googleWorld403 "p" "j" =
      google.exchange_federated_token googleWorld500 "p" "j" := by
  refine ⟨by decide, by decide⟩

/-- C6 amended: in the current auth module both token HTTP calls surface
a decode failure as `Deserialize(status, body)`, embedding the HTTP
status and the literal raw response body; the superseded google module's
exchange instead returns the generic reqwest decode error, which carries
only the serde message. -/
theorem c6_decode_failure_error_content (w : auth.AuthWorld)
    (gw : google.GoogleWorld) (url bearer pool idtok gpool gjwt msg : String)
    (resp₁ resp₂ gresp : HttpResponse) :
    (w.idTokenEndpoint (auth.idRequest url bearer pool) = .ok resp₁ →
      w.decodeGitHubTokenResponse resp₁.body = none →
      auth.github_id_token w url bearer pool =
        .error (.deserialize resp₁.status resp₁.body)) ∧
    (w.stsEndpoint (auth.exchangeRequest pool idtok) = .ok resp₂ →
      w.decodeTokenExchangeResponse resp₂.body = none →
      auth.exchange_federated_token w pool idtok =
        .error (.deserialize resp₂.status resp₂.body)) ∧
    (gw.stsEndpoint (google.exchangeRequest gpool gjwt) = .ok gresp →
      gw.decodeTokenExchange gresp.body = .error msg →
      google.exchange_federated_token gw gpool gjwt =
        .error (.reqwest msg)) := by
  refine ⟨fun ha hb => ?_, fun ha hb => ?_, fun ha hb => ?_⟩
  · unfold auth.github_id_token
    rw [ha]
    simp [hb]
  · unfold auth.exchange_federated_token
    rw [ha]
    simp [hb]
  · unfold google.exchange_federated_token
    rw [ha]
    simp [hb]

/-- C6 amended witness: the three decode-failure shapes at concrete
worlds — the auth calls embed the status and literal body, the google
call yields only the serde message. -/
theorem c6_decode_failure_error_content_witness :
    auth.github_id_token authWorldDecodeFail "u" "b" "p" =
      .error (.deserialize 502 "bad gateway") ∧
    auth.exchange_federated_token authWorldDecodeFail "p" "id" =
      .error (.deserialize 500 "oops") ∧
    google.exchange_federated_token googleWorld500 "gp" "gj" =
      .error (.reqwest "expected value at line 1 column 1") :=
  ⟨(c6_decode_failure_error_content authWorldDecodeFail googleWorld500
      "u" "b" "p" "id" "gp" "gj" "expected value at line 1 column 1"
      ⟨502, "bad gateway"⟩ ⟨500, "oops"⟩ ⟨500, "oops"⟩).1 rfl rfl,
   (c6_decode_failure_error_content authWorldDecodeFail googleWorld500
      "u" "b" "p" "id" "gp" "gj" "expected value at line 1 column 1"
      ⟨502, "bad gateway"⟩ ⟨500, "oops"⟩ ⟨500, "oops"⟩).2.1 rfl rfl,
   (c6_decode_failure_error_content authWorldDecodeFail googleWorld500
      "u" "b" "p" "id" "gp" "gj" "expected value at line 1 column 1"
      ⟨502, "bad gateway"⟩ ⟨500, "oops"⟩ ⟨500, "oops"⟩).2.2 rfl rfl⟩


/-! ### C9 helper lemmas: command blocks -/

theorem foldl_newline (cmds : List (List Char)) (acc : List Char) :
    cmds.foldl (fun a item => a ++ '\n' :: item) acc = acc ++ joinNL cmds := by
  induction cmds generalizing acc with
  | nil => simp [joinNL]
  | cons c cs ih => simp [joinNL, ih, List.append_assoc]

theorem intercalate_eq (c : List Char) (cs : List (List Char)) :
    List.intercalate ['\n'] (c :: cs) = c ++ joinNL cs := by
  induction cs generalizing c with
  | nil => simp [List.intercalate, joinNL]
  | cons d ds ih =>
    have h := ih d
    simp only [List.intercalate, List.intersperse_cons_cons, List.flatten_cons] at h ⊢
    simp [joinNL] at h ⊢
    rw [h]

theorem dropWhile_eq_self_of_head (l : List Char) (a : Char) (h : l.head? = some a)
    (ha : a.isWhitespace = false) : l.dropWhile Char.isWhitespace = l := by
  cases l with
  | nil => rfl
  | cons x xs =>
    simp only [List.head?_cons, Option.some.injEq] at h
    subst h
    simp [List.dropWhile_cons, ha]

theorem dropTrailingWS_eq_self (l : List Char) (a : Char) (h : l.getLast? = some a)
    (ha : a.isWhitespace = false) : dropTrailingWS l = l := by
  unfold dropTrailingWS
  rw [dropWhile_eq_self_of_head l.reverse a (by simpa using h) ha, List.reverse_reverse]

theorem trimChars_cons_newline (X : List Char) (a b : Char)
    (hh : X.head? = some a) (ha : a.isWhitespace = false)
    (hg : X.getLast? = some b) (hb : b.isWhitespace = false) :
    trimChars ('\n' :: X) = X := by
  unfold trimChars
  rw [List.dropWhile_cons]
  simp only [show Char.isWhitespace '\n' = true from by decide, if_true]
  rw [dropWhile_eq_self_of_head X a hh ha]
  exact dropTrailingWS_eq_self X b hg hb

theorem getLast?_joinNL_nonws (cs : List (List Char))
    (hnn : ∀ x ∈ cs, x ≠ [])
    (h : ∀ x ∈ cs, ∀ a, x.getLast? = some a → a.isWhitespace = false) :
    ∀ a, (joinNL cs).getLast? = some a → a.isWhitespace = false := by
  induction cs with
  | nil => intro a ha; simp [joinNL] at ha
  | cons d ds ih =>
    intro a ha
    cases ds with
    | nil =>
      have hd : d ≠ [] := hnn d (by simp)
      simp only [joinNL, List.map_cons, List.map_nil, List.flatten_cons,
        List.flatten_nil, List.append_nil] at ha
      rw [show ('\n' :: d) = ['\n'] ++ d from rfl, List.getLast?_append] at ha
      rcases hgl : d.getLast? with _ | b
      · exact absurd hgl (by simp [hd])
      · rw [hgl] at ha
        simp at ha
        subst ha
        exact h d (by simp) _ hgl
    | cons e es =>
      have hne : joinNL (e :: es) ≠ [] := by simp [joinNL]
      rw [show joinNL (d :: e :: es) = (('\n' :: d) ++ joinNL (e :: es)) from by
        simp [joinNL]] at ha
      rw [List.getLast?_append] at ha
      rcases hgl : (joinNL (e :: es)).getLast? with _ | b
      · exact absurd hgl (by simp [hne])
      · rw [hgl] at ha
        simp at ha
        subst ha
        exact ih (fun x hx => hnn x (List.mem_cons_of_mem d hx))
          (fun x hx => h x (List.mem_cons_of_mem d hx)) _ hgl

theorem commandBlock_eq_intercalate (cmds : List (List Char))
    (h : ∀ c ∈ cmds, c ≠ [] ∧
      (∀ a, c.head? = some a → a.isWhitespace = false) ∧
      (∀ a, c.getLast? = some a → a.isWhitespace = false)) :
    commandBlock cmds = List.intercalate ['\n'] cmds := by
  cases cmds with
  | nil => rfl
  | cons c cs =>
    unfold commandBlock
    rw [foldl_newline, List.nil_append, intercalate_eq]
    have hc := h c (by simp)
    rcases hhc : c.head? with _ | a
    · exact absurd hhc (by simp [hc.1])
    have haw := hc.2.1 a hhc
    cases cs with
    | nil =>
      rcases hgc : c.getLast? with _ | b
      · exact absurd hgc (by simp [hc.1])
      rw [show joinNL ([] : List (List Char)) = [] from rfl, List.append_nil,
        show joinNL [c] = '\n' :: c from by simp [joinNL]]
      exact trimChars_cons_newline c a b hhc haw hgc (hc.2.2 b hgc)
    | cons d ds =>
      have hhead : (c ++ joinNL (d :: ds)).head? = some a := by
        rw [List.head?_append, hhc]; rfl
      have hnecs : joinNL (d :: ds) ≠ [] := by simp [joinNL]
      rcases hgl : (joinNL (d :: ds)).getLast? with _ | b
      · exact absurd hgl (by simp [hnecs])
      have hlast : (c ++ joinNL (d :: ds)).getLast? = some b := by
        rw [List.getLast?_append, hgl]; rfl
      have hbw : b.isWhitespace = false := by
        refine getLast?_joinNL_nonws (d :: ds) ?_ ?_ b hgl
        · intro x hx; exact (h x (List.mem_cons_of_mem c hx)).1
        · intro x hx; exact (h x (List.mem_cons_of_mem c hx)).2.2
      rw [show joinNL (c :: d :: ds) = '\n' :: (c ++ joinNL (d :: ds)) from by
        simp [joinNL]]
      exact trimChars_cons_newline _ a b hhead haw hlast hbw


theorem buildCommand_cons (t : List Char) :
    sdk.buildCommand t = 'R' ::
      ("UN go build -a -installsuffix cgo -o /build/".toList ++ t ++
        " ./cmd/".toList ++ t) := rfl

theorem copyCommand_cons (t : List Char) :
    sdk.copyCommand t = 'C' ::
      ("OPY --from=builder /build/".toList ++ t ++ " /app/".toList ++ t) := rfl

theorem append_getLast?_right (l₁ t : List Char) (c : Char)
    (h : t.getLast? = some c) : (l₁ ++ t).getLast? = some c := by
  rw [List.getLast?_append, h]; rfl

theorem buildCommand_ok (t : List Char) (ht : t ≠ [])
    (hw : ∀ c ∈ t, c.isWhitespace = false) :
    sdk.buildCommand t ≠ [] ∧
    (∀ a, (sdk.buildCommand t).head? = some a → a.isWhitespace = false) ∧
    (∀ a, (sdk.buildCommand t).getLast? = some a → a.isWhitespace = false) := by
  refine ⟨by rw [buildCommand_cons]; simp, ?_, ?_⟩
  · intro a ha
    rw [buildCommand_cons] at ha
    simp only [List.head?_cons, Option.some.injEq] at ha
    subst ha
    decide
  · intro a ha
    rcases hgt : t.getLast? with _ | c
    · exact absurd hgt (by simp [ht])
    have h2 : (sdk.buildCommand t).getLast? = some c := by
      unfold sdk.buildCommand
      exact append_getLast?_right _ t c hgt
    rw [h2] at ha
    simp only [Option.some.injEq] at ha
    subst ha
    exact hw c (List.mem_of_getLast?_eq_some hgt)

theorem copyCommand_ok (t : List Char) (ht : t ≠ [])
    (hw : ∀ c ∈ t, c.isWhitespace = false) :
    sdk.copyCommand t ≠ [] ∧
    (∀ a, (sdk.copyCommand t).head? = some a → a.isWhitespace = false) ∧
    (∀ a, (sdk.copyCommand t).getLast? = some a → a.isWhitespace = false) := by
  refine ⟨by rw [copyCommand_cons]; simp, ?_, ?_⟩
  · intro a ha
    rw [copyCommand_cons] at ha
    simp only [List.head?_cons, Option.some.injEq] at ha
    subst ha
    decide
  · intro a ha
    rcases hgt : t.getLast? with _ | c
    · exact absurd hgt (by simp [ht])
    have h2 : (sdk.copyCommand t).getLast? = some c := by
      unfold sdk.copyCommand
      exact append_getLast?_right _ t c hgt
    rw [h2] at ha
    simp only [Option.some.injEq] at ha
    subst ha
    exact hw c (List.mem_of_getLast?_eq_some hgt)

theorem newline_not_mem_buildCommand (t : List Char)
    (hw : ∀ c ∈ t, c.isWhitespace = false) : '\n' ∉ sdk.buildCommand t := by
  unfold sdk.buildCommand
  intro hm
  simp only [List.mem_append] at hm
  rcases hm with ((h1 | h2) | h3) | h4
  · exact absurd h1 (by decide)
  · exact absurd (hw _ h2) (by decide)
  · exact absurd h3 (by decide)
  · exact absurd (hw _ h4) (by decide)

theorem newline_not_mem_copyCommand (t : List Char)
    (hw : ∀ c ∈ t, c.isWhitespace = false) : '\n' ∉ sdk.copyCommand t := by
  unfold sdk.copyCommand
  intro hm
  simp only [List.mem_append] at hm
  rcases hm with ((h1 | h2) | h3) | h4
  · exact absurd h1 (by decide)
  · exact absurd (hw _ h2) (by decide)
  · exact absurd h3 (by decide)
  · exact absurd (hw _ h4) (by decide)

/-- C9: the generated Go Dockerfile has exactly one build command and
one copy command per target, in target-list order (the blocks are the
newline-join of the per-target command lines, and split back into exactly
those lines), and the default-run directive is the literal `CMD` form iff
there is exactly one target — with zero or several targets it is the
comment line. -/
theorem c9_go_dockerfile_structure (targets : List (List Char))
    (h : ∀ t ∈ targets, t ≠ [] ∧ ∀ c ∈ t, c.isWhitespace = false) :
    sdk.binary_build_commands targets =
      List.intercalate ['\n'] (targets.map sdk.buildCommand) ∧
    sdk.binary_copy_commands targets =
      List.intercalate ['\n'] (targets.map sdk.copyCommand) ∧
    (targets ≠ [] →
      (sdk.binary_build_commands targets).splitOn '\n' = targets.map sdk.buildCommand ∧
      (sdk.binary_copy_commands targets).splitOn '\n' = targets.map sdk.copyCommand) ∧
    (∀ t, targets = [t] →
      sdk.default_target targets = "CMD [\"/app/".toList ++ t ++ "\"]".toList) ∧
    (targets.length ≠ 1 →
      sdk.default_target targets =
        "# Default CMD omitted due to multiple targets specified".toList) := by
  have hb : sdk.binary_build_commands targets =
      List.intercalate ['\n'] (targets.map sdk.buildCommand) := by
    refine commandBlock_eq_intercalate _ ?_
    intro c hc
    rcases List.mem_map.mp hc with ⟨t, ht, rfl⟩
    exact buildCommand_ok t (h t ht).1 (h t ht).2
  have hcp : sdk.binary_copy_commands targets =
      List.intercalate ['\n'] (targets.map sdk.copyCommand) := by
    refine commandBlock_eq_intercalate _ ?_
    intro c hc
    rcases List.mem_map.mp hc with ⟨t, ht, rfl⟩
    exact copyCommand_ok t (h t ht).1 (h t ht).2
  refine ⟨hb, hcp, fun hne => ⟨?_, ?_⟩, fun t ht => ?_, fun hlen => ?_⟩
  · rw [hb]
    refine List.splitOn_intercalate _ '\n' ?_ (by simpa using hne)
    intro l hl
    rcases List.mem_map.mp hl with ⟨t, ht, rfl⟩
    exact newline_not_mem_buildCommand t (h t ht).2
  · rw [hcp]
    refine List.splitOn_intercalate _ '\n' ?_ (by simpa using hne)
    intro l hl
    rcases List.mem_map.mp hl with ⟨t, ht, rfl⟩
    exact newline_not_mem_copyCommand t (h t ht).2
  · subst ht; rfl
  · match targets, hlen with
    | [], _ => rfl
    | [t], hlen => exact absurd rfl hlen
    | a :: b :: l, _ => rfl

/-- C9 witness: the two-target scenario `svcA`, `svcB` — two build
commands in order, and the comment default directive. -/
theorem c9_go_dockerfile_structure_witness :
    sdk.binary_build_commands ["svcA".toList, "svcB".toList] =
      List.intercalate ['\n']
        (["svcA".toList, "svcB".toList].map sdk.buildCommand) ∧
    (sdk.binary_build_commands ["svcA".toList, "svcB".toList]).splitOn '\n' =
      ["svcA".toList, "svcB".toList].map sdk.buildCommand ∧
    sdk.default_target ["svcA".toList, "svcB".toList] =
      "# Default CMD omitted due to multiple targets specified".toList :=
  ⟨(c9_go_dockerfile_structure _ (by decide)).1,
   ((c9_go_dockerfile_structure _ (by decide)).2.2.1 (by decide)).1,
   (c9_go_dockerfile_structure _ (by decide)).2.2.2.2 (by decide)⟩



/-! ### C10 helper lemmas and theorems -/

/-- The hex digest of any message is 64 characters. -/
theorem sha256_digest_length (msg : List Nat) :
    (sha256.digest msg).length = 64 := by
  simp [sha256.digest, sha256.wordHexBytes]

/-- `truncate` never exceeds the requested length. -/
theorem truncate_length_le (s : List Nat) (n : Nat) :
    (auth.truncate s n).length ≤ n := by
  unfold auth.truncate
  split_ifs with h
  · omega
  · simp [List.length_take]

/-- `join("-")` of the three parts, unfolded. -/
theorem intercalate3 (x : Nat) (a b c : List Nat) :
    List.intercalate [x] [a, b, c] = a ++ x :: (b ++ x :: c) := by
  simp [List.intercalate, List.intersperse]

/-- C10: `slug_hash_prefix_truncate` returns `None` exactly when
`max_length < prefix.len() + 6`; otherwise it returns a string that
begins with the prefix followed by `-`, ends with `-` followed by the
first four hex characters of the slug's SHA-256 digest, and is no longer
than `max_length`. -/
theorem c10_slug_hash_prefix_truncate (slug pfx : List Nat)
    (max_length : Nat) :
    (auth.slug_hash_prefix_truncate slug pfx max_length = none ↔
      max_length < pfx.length + 6) ∧
    (pfx.length + 6 ≤ max_length →
      ∃ s, auth.slug_hash_prefix_truncate slug pfx max_length = some s ∧
        (pfx ++ [45]) <+: s ∧
        (45 :: (sha256.digest slug).take 4) <:+ s ∧
        s.length ≤ max_length) := by
  simp only [auth.slug_hash_prefix_truncate, Nat.cast_ofNat]
  split_ifs with h
  · constructor
    · constructor
      · intro _
        omega
      · intro _
        rfl
    · intro hle
      exfalso
      omega
  · have htr : auth.truncate (sha256.digest slug) (max 4 0) =
        (sha256.digest slug).take 4 := by
      unfold auth.truncate
      rw [sha256_digest_length]
      norm_num
    constructor
    · constructor
      · intro hnone
        exact absurd hnone (by simp)
      · intro habs
        exfalso
        omega
    · intro hle
      refine ⟨_, rfl, ?_, ?_, ?_⟩
      · rw [intercalate3]
        refine ⟨auth.truncate slug
            (max ((max_length : Int) - (pfx.length : Int) - 4 - 2) 0).toNat ++
          45 :: auth.truncate (sha256.digest slug) (max 4 0), ?_⟩
        simp
      · rw [intercalate3, htr]
        refine ⟨pfx ++ 45 :: auth.truncate slug
          (max ((max_length : Int) - (pfx.length : Int) - 4 - 2) 0).toNat, ?_⟩
        simp
      · rw [intercalate3]
        have h1 := truncate_length_le slug
          (max ((max_length : Int) - (pfx.length : Int) - 4 - 2) 0).toNat
        have h2 := truncate_length_le (sha256.digest slug) (max 4 0)
        simp only [List.length_append, List.length_cons]
        have hm : (max ((max_length : Int) - (pfx.length : Int) - 4 - 2) 0).toNat =
            max_length - pfx.length - 6 := by omega
        omega

/-- C10 witness: the theorem applied at the two-byte slug `ab`, prefix
`p`, and limit 9 (so the truncated slug keeps both bytes). -/
theorem c10_slug_hash_prefix_truncate_witness :
    ([112] : List Nat).length + 6 ≤ 9 ∧
    (∃ s, auth.slug_hash_prefix_truncate [97, 98] [112] 9 = some s ∧
      (([112] : List Nat) ++ [45]) <+: s ∧
      (45 :: (sha256.digest [97, 98]).take 4) <:+ s ∧
      s.length ≤ 9) :=
  ⟨by decide, (c10_slug_hash_prefix_truncate [97, 98] [112] 9).2 (by decide)⟩

set_option maxRecDepth 10000 in
/-- The auth module's own unit test `test_slug_hash_prefix_truncate`
(src/auth.rs:180-189), replayed through the embedding: the expected
output ends in `4789`, the first four hex characters of the slug's
SHA-256 — confirming the embedded digest agrees with the `sha256` crate
here. -/
theorem slug_hash_prefix_truncate_repo_test :
    auth.slug_hash_prefix_truncate (strBytes "crm-arbeidsforhold-admin")
      (strBytes "gar") 30 =
      some (strBytes "gar-crm-arbeidsforhold-ad-4789") := by
  decide

set_option maxRecDepth 10000 in
/-- The out-of-bounds unit test `test_slug_hash_prefix_truncate_out_of_bounds`
(src/auth.rs:192-199), replayed through the embedding. -/
theorem slug_hash_prefix_truncate_repo_test_oob :
    auth.slug_hash_prefix_truncate
      (strBytes "very-long-slug-that-must-be-truncated") (strBytes "four") 9 =
      none := by
  decide

end NaisBuild
